import Mathlib

/-!
Shallow embedding of the token-lifecycle and resilient-request client of the
3Gs-iRacing-Overlays repository (examples/data-client.js: class
iRacingDataClient, and the appended auth-manager: class iRacingAuthManager).

Network I/O is modelled by explicit oracles (what the transport returns at
each call site), timestamps by natural numbers of milliseconds (Date.now is
nonnegative, so JS signed comparisons are reproduced on Nat, noted where the
translation relies on it), and observable side effects of the request loop
(data-endpoint fetches, sleeps, token refreshes) by an accumulated trace.
-/

namespace IRacing

/-- Token response body shape: access_token, refresh_token, expires_in (seconds). -/
structure TokenData where
  access_token : String
  refresh_token : String
  expires_in : Nat
deriving DecidableEq, Repr

/-- Instance fields of iRacingAuthManager: accessToken, refreshToken, tokenExpiry
(null modelled as none). -/
structure AuthState where
  accessToken : Option String
  refreshToken : Option String
  tokenExpiry : Option Nat
deriving DecidableEq, Repr

/-- this.refreshBuffer = 300000 (refresh 5 minutes before expiry). -/
def refreshBuffer : Nat := 300000

/-- needsRefresh(): `if (!this.tokenExpiry) return true; return Date.now() >= (this.tokenExpiry - this.refreshBuffer)`.
Over the integers, now >= e - buffer iff now + buffer >= e, which is how the
signed JS subtraction is rendered on Nat. -/
def needsRefresh (now : Nat) (s : AuthState) : Bool :=
  match s.tokenExpiry with
  | none => true
  | some e => decide (e ≤ now + refreshBuffer)

/-- storeTokens(tokenData): sets all three fields; expiry = Date.now() + expires_in * 1000. -/
def storeTokens (now : Nat) (td : TokenData) (_s : AuthState) : AuthState :=
  ⟨some td.access_token, some td.refresh_token, some (now + td.expires_in * 1000)⟩

/-- clearTokens(): all three fields set to null. -/
def clearTokens (_s : AuthState) : AuthState :=
  ⟨none, none, none⟩

/-- The distinct error conditions thrown by iRacingAuthManager. The source
throws plain Error objects; the constructors record the distinct code paths
(and their distinct message shapes), which is what a caller can observe. -/
inductive AuthErr where
  /-- "No refresh token available. Please authenticate first." -/
  | noRefreshToken
  /-- "Not authenticated. Please call authenticate() first." -/
  | notAuthenticated
  /-- makeRequest non-2xx: "HTTP {status}: {description}". -/
  | httpStatus (code : Nat) (desc : String)
  /-- makeRequest: "Failed to parse response: ...". -/
  | parseFailed
  /-- makeRequest transport error: "Request failed: {msg}". -/
  | requestFailed (msg : String)
deriving DecidableEq, Repr

/-- A JSON body of the token endpoint that JSON.parse accepts. -/
inductive ParsedJson where
  | tokenJson (td : TokenData)
  | oauthError (error : String) (errorDescription : Option String)
deriving DecidableEq, Repr

/-- Raw body: either parseable JSON or not. -/
inductive TokenBody where
  | parsed (p : ParsedJson)
  | unparseable
deriving DecidableEq, Repr

/-- What the transport yields for one POST to the token endpoint. -/
inductive TokenTransport where
  | response (statusCode : Nat) (body : TokenBody)
  | transportError (msg : String)
deriving DecidableEq, Repr

/-- JS truthiness chain `parsed.error_description || parsed.error || 'Unknown error'`
(empty strings are falsy). -/
def errDescription : ParsedJson → String
  | .tokenJson _ => "Unknown error"
  | .oauthError e d =>
    match d with
    | some s => if s = "" then (if e = "" then "Unknown error" else e) else s
    | none => if e = "" then "Unknown error" else e

/-- iRacingAuthManager.makeRequest: parse the body first; on parse failure
reject "Failed to parse response"; on 2xx resolve the parsed JSON; otherwise
reject "HTTP {status}: {description}"; transport errors reject "Request failed". -/
def makeRequest (t : TokenTransport) : Except AuthErr ParsedJson :=
  match t with
  | .transportError m => .error (.requestFailed m)
  | .response code body =>
    match body with
    | .unparseable => .error .parseFailed
    | .parsed p =>
      if 200 ≤ code ∧ code < 300 then .ok p
      else .error (.httpStatus code (errDescription p))

/-- storeTokens applied to whatever 2xx JSON came back. For a non-token body the
JS fields read undefined; undefined access/refresh tokens are none, and the
NaN expiry (Date.now() + undefined * 1000) is falsy in needsRefresh exactly as
none is, so it is rendered as none. -/
def storeTokensParsed (now : Nat) (p : ParsedJson) (s : AuthState) : AuthState :=
  match p with
  | .tokenJson td => storeTokens now td s
  | .oauthError _ _ => ⟨none, none, none⟩

/-- iRacingAuthManager.authenticate: POST password grant, store tokens on
success, rethrow the makeRequest error on failure (state untouched). -/
def authenticate (now : Nat) (t : TokenTransport) (s : AuthState) :
    Except AuthErr ParsedJson × AuthState :=
  match makeRequest t with
  | .ok p => (.ok p, storeTokensParsed now p s)
  | .error e => (.error e, s)

/-- iRacingAuthManager.refreshAccessToken: throw if no refresh token (state
untouched); on makeRequest success store tokens; on any makeRequest failure
clear all tokens and rethrow. -/
def refreshAccessToken (now : Nat) (t : TokenTransport) (s : AuthState) :
    Except AuthErr ParsedJson × AuthState :=
  match s.refreshToken with
  | none => (.error .noRefreshToken, s)
  | some _ =>
    match makeRequest t with
    | .ok p => (.ok p, storeTokensParsed now p s)
    | .error e => (.error e, clearTokens s)

/-- iRacingAuthManager.getValidToken: throw notAuthenticated if accessToken is
null; refresh (once) if needsRefresh; return this.accessToken afterwards.
The third component counts refreshAccessToken invocations. -/
def getValidToken (now : Nat) (t : TokenTransport) (s : AuthState) :
    Except AuthErr (Option String) × AuthState × Nat :=
  match s.accessToken with
  | none => (.error .notAuthenticated, s, 0)
  | some _ =>
    if needsRefresh now s then
      match refreshAccessToken now t s with
      | (.ok _, s₁) => (.ok s₁.accessToken, s₁, 1)
      | (.error e, s₁) => (.error e, s₁, 1)
    else
      (.ok s.accessToken, s, 0)

/-- An arbitrary decoded JSON payload of the data endpoint (opaque to the client). -/
structure JsonData where
  raw : String
deriving DecidableEq, Repr

/-- What makeHttpsRequest yields for one GET: a parsed 2xx body; a non-2xx
error carrying statusCode and the optional Retry-After header; or an error
with no statusCode field (transport failure or a 2xx body JSON.parse rejects). -/
inductive FetchResult where
  | ok (data : JsonData)
  | httpErr (statusCode : Nat) (retryAfter : Option Nat)
  | noStatus (msg : String)
deriving DecidableEq, Repr

/-- Errors iRacingDataClient.request can throw. -/
inductive ReqErr where
  /-- an error thrown by the auth manager (getValidToken or refreshAccessToken);
  such errors carry no statusCode field. -/
  | auth (e : AuthErr)
  /-- an HTTP error from makeHttpsRequest (statusCode, Retry-After if any). -/
  | http (statusCode : Nat) (retryAfter : Option Nat)
  /-- a makeHttpsRequest error with no statusCode field. -/
  | net (msg : String)
deriving DecidableEq, Repr

/-- Observable side effects of request(): a data-endpoint fetch, a sleep of
so many milliseconds, an invocation of this.auth.refreshAccessToken(). -/
inductive Effect where
  | fetch (endpoint : String)
  | sleepMs (ms : Nat)
  | refresh
deriving DecidableEq, Repr

/-- The 429 branch wait in milliseconds:
`(error.retryAfter || Math.pow(2, attempt)) * 1000`. -/
def retryWaitMs (retryAfter : Option Nat) (attempt : Nat) : Nat :=
  (match retryAfter with
   | some r => r
   | none => 2 ^ attempt) * 1000

/-- The attempt loop of iRacingDataClient.request. Oracles: getTok is the
outcome of this.auth.getValidToken() at each attempt, fetch the outcome of
makeHttpsRequest, refreshAt the outcome of this.auth.refreshAccessToken() in
the 401 branch. The fuel argument counts the remaining loop iterations
(request enters with fuel = maxRetries, attempt = 0); fuel 0 is loop exit
(`throw lastError`, none when the loop never ran). lastErr and acc thread
the lastError variable and the effect trace. Branches in source order:
on a getValidToken error the catch sees no statusCode and rethrows with no
further effect; 401 refreshes and continues (a throwing refresh escapes the
catch); 429 sleeps retryWaitMs and continues; >= 500 sleeps 2^attempt*1000 and
continues only when attempt < maxRetries - 1, else falls through to the
rethrow; anything else rethrows at once. -/
def requestLoop (endpoint : String) (getTok : Nat → Except AuthErr String)
    (fetch : Nat → FetchResult) (refreshAt : Nat → Except AuthErr Unit)
    (maxRetries : Nat) :
    Nat → Nat → Option ReqErr → List Effect →
    Except (Option ReqErr) JsonData × List Effect
  | 0, _, lastErr, acc => (.error lastErr, acc)
  | fuel + 1, attempt, _, acc =>
    match getTok attempt with
    | .error e => (.error (some (.auth e)), acc)
    | .ok _ =>
      match fetch attempt with
      | .ok d => (.ok d, acc ++ [.fetch endpoint])
      | .noStatus m => (.error (some (.net m)), acc ++ [.fetch endpoint])
      | .httpErr code ra =>
        let err : ReqErr := .http code ra
        let acc₁ := acc ++ [.fetch endpoint]
        if code = 401 then
          match refreshAt attempt with
          | .ok _ =>
            requestLoop endpoint getTok fetch refreshAt maxRetries
              fuel (attempt + 1) (some err) (acc₁ ++ [.refresh])
          | .error e => (.error (some (.auth e)), acc₁ ++ [.refresh])
        else if code = 429 then
          requestLoop endpoint getTok fetch refreshAt maxRetries
            fuel (attempt + 1) (some err) (acc₁ ++ [.sleepMs (retryWaitMs ra attempt)])
        else if 500 ≤ code then
          if attempt < maxRetries - 1 then
            requestLoop endpoint getTok fetch refreshAt maxRetries
              fuel (attempt + 1) (some err) (acc₁ ++ [.sleepMs (2 ^ attempt * 1000)])
          else
            (.error (some err), acc₁)
        else
          (.error (some err), acc₁)

/-- iRacingDataClient.request(endpoint, maxRetries = 3). -/
def request (endpoint : String) (getTok : Nat → Except AuthErr String)
    (fetch : Nat → FetchResult) (refreshAt : Nat → Except AuthErr Unit)
    (maxRetries : Nat) : Except (Option ReqErr) JsonData × List Effect :=
  requestLoop endpoint getTok fetch refreshAt maxRetries maxRetries 0 none []

/-- Map.set semantics on an association list: overwrite the key in place or
append it. -/
def mapSet {α : Type} (k : String) (v : α) : List (String × α) → List (String × α)
  | [] => [(k, v)]
  | (k₁, v₁) :: rest => if k₁ = k then (k, v) :: rest else (k₁, v₁) :: mapSet k v rest

/-- The two Maps of iRacingDataClient: this.cache and this.cacheExpiry. -/
structure ClientState where
  cache : List (String × JsonData)
  cacheExpiry : List (String × Nat)
deriving DecidableEq, Repr

/-- The cache-hit test of cachedRequest: `this.cache.has(endpoint)` and then
`now < this.cacheExpiry.get(endpoint)` (a missing expiry reads undefined and
the comparison is false). -/
def cacheHit (endpoint : String) (now : Nat) (st : ClientState) : Bool :=
  (st.cache.lookup endpoint).isSome &&
    (match st.cacheExpiry.lookup endpoint with
     | some e => decide (now < e)
     | none => false)

/-- iRacingDataClient.cachedRequest(endpoint, ttl = 300000). fetchOutcome is
what `await this.request(endpoint)` would yield on the miss path; on a hit it
is never consumed. The Bool records whether the underlying fetch ran. A
throwing fetch propagates before the two cache writes. -/
def cachedRequest (endpoint : String) (ttl : Nat) (now : Nat)
    (fetchOutcome : Except (Option ReqErr) JsonData) (st : ClientState) :
    Except (Option ReqErr) JsonData × ClientState × Bool :=
  if cacheHit endpoint now st then
    (.ok ((st.cache.lookup endpoint).getD ⟨""⟩), st, false)
  else
    match fetchOutcome with
    | .ok d =>
      (.ok d,
       ⟨mapSet endpoint d st.cache, mapSet endpoint (now + ttl) st.cacheExpiry⟩,
       true)
    | .error e => (.error e, st, true)

/-! Concrete oracles and states used to instantiate the theorems below. -/

/-- getValidToken always succeeds. -/
def tokOk : Nat → Except AuthErr String := fun _ => .ok "tok"

/-- getValidToken always throws (never authenticated). -/
def tokFail : Nat → Except AuthErr String := fun _ => .error .notAuthenticated

/-- refreshAccessToken in the 401 branch always succeeds. -/
def refreshOk : Nat → Except AuthErr Unit := fun _ => .ok ()

/-- Every fetch answers 500. -/
def fetch500 : Nat → FetchResult := fun _ => .httpErr 500 none

/-- Response sequence [401, 200]. -/
def fetch401then200 : Nat → FetchResult :=
  fun a => if a = 0 then .httpErr 401 none else .ok ⟨"payload"⟩

/-- Every fetch answers 401. -/
def fetch401always : Nat → FetchResult := fun _ => .httpErr 401 none

/-- Response sequence [429 with Retry-After 2, 200]. -/
def fetch429then200 : Nat → FetchResult :=
  fun a => if a = 0 then .httpErr 429 (some 2) else .ok ⟨"payload"⟩

/-- Every fetch answers 429 with Retry-After 5. -/
def fetch429ra5 : Nat → FetchResult := fun _ => .httpErr 429 (some 5)

/-- A fresh token body. -/
def tdNew : TokenData := ⟨"newtok", "newrt", 3600⟩

/-- Token endpoint answers 200 with a fresh token. -/
def ttOkNew : TokenTransport := .response 200 (.parsed (.tokenJson tdNew))

/-- Token endpoint answers 400 with an OAuth invalid_grant body. -/
def ttFail400 : TokenTransport := .response 400 (.parsed (.oauthError "invalid_grant" none))

/-- An authenticated manager whose token expires at t = 1000000 ms. -/
def sAuthed : AuthState := ⟨some "tok", some "rt", some 1000000⟩

/-- Two distinct payloads for the cache theorems. -/
def payloadA : JsonData := ⟨"cars-v1"⟩

/-- Second payload. -/
def payloadB : JsonData := ⟨"cars-v2"⟩

/-- A client whose cache maps "car/get" to payloadA expiring at 301000. -/
def stCached : ClientState := ⟨[("car/get", payloadA)], [("car/get", 301000)]⟩

/-- Map.set then Map.get of the same key yields the just-written value. -/
theorem mapSet_lookup_self {α : Type} (k : String) (v : α) :
    ∀ l : List (String × α), (mapSet k v l).lookup k = some v := by
  intro l
  induction l with
  | nil => simp [mapSet, List.lookup]
  | cons hd tl ih =>
    obtain ⟨k₁, v₁⟩ := hd
    by_cases h : k₁ = k
    · simp [mapSet, h, List.lookup]
    · have hbe : (k == k₁) = false := beq_eq_false_iff_ne.mpr (Ne.symm h)
      simp [mapSet, h, List.lookup, ih, hbe]

/-- Claim C2: with maxRetries = 3 and responses [500, 500, 500], request()
fails with the HTTP error of status 500 after exactly 3 fetch attempts,
sleeping 1000 ms between attempts 0 and 1 and 2000 ms between attempts 1 and
2, with no sleep after the final attempt. -/
theorem request_serverError_exhausts_with_backoff :
    request "ep" tokOk fetch500 refreshOk 3 =
      (.error (some (.http 500 none)),
       [.fetch "ep", .sleepMs 1000, .fetch "ep", .sleepMs 2000, .fetch "ep"]) := by
  rfl

/-- Claim C7: with responses [401, 200], request() performs exactly one token
refresh and returns the 200 payload with exactly 2 fetches; and the 401 branch
reuses the same attempt counter rather than a separate budget, as an
all-401 run with maxRetries = 3 performs only 3 fetches before exhaustion. -/
theorem request_401_single_refresh :
    request "ep" tokOk fetch401then200 refreshOk 3 =
      (.ok ⟨"payload"⟩, [.fetch "ep", .refresh, .fetch "ep"]) ∧
    request "ep" tokOk fetch401always refreshOk 3 =
      (.error (some (.http 401 none)),
       [.fetch "ep", .refresh, .fetch "ep", .refresh, .fetch "ep", .refresh]) :=
  ⟨rfl, rfl⟩

/-- Claim C6: at any attempt of the loop, for any endpoint and any retry
budget, a getValidToken() failure propagates at once: the result is that very
AuthErr and the effect trace gains no fetch, no sleep and no refresh. -/
theorem requestLoop_authError_propagates (endpoint : String)
    (getTok : Nat → Except AuthErr String) (fetch : Nat → FetchResult)
    (refreshAt : Nat → Except AuthErr Unit) (maxRetries fuel attempt : Nat)
    (lastErr : Option ReqErr) (acc : List Effect) (e : AuthErr)
    (h : getTok attempt = .error e) :
    requestLoop endpoint getTok fetch refreshAt maxRetries (fuel + 1) attempt lastErr acc =
      (.error (some (.auth e)), acc) := by
  simp [requestLoop, h]

/-- Witness for requestLoop_authError_propagates at a concrete oracle. -/
theorem requestLoop_authError_propagates_instance :
    requestLoop "ep" tokFail fetch500 refreshOk 3 3 0 none [] =
      (.error (some (.auth .notAuthenticated)), []) :=
  requestLoop_authError_propagates "ep" tokFail fetch500 refreshOk 3 2 0 none []
    .notAuthenticated rfl

/-- Claim C8: on a 429 at any attempt, the loop sleeps retryWaitMs
(Retry-After seconds when present, else 2 ^ attempt seconds, times 1000) and
continues with the next attempt; and concretely, responses
[429 Retry-After 2, 200] produce a 2000 ms sleep between the two fetches and
the 200 payload. -/
theorem request_429_wait_policy (endpoint : String)
    (getTok : Nat → Except AuthErr String) (fetch : Nat → FetchResult)
    (refreshAt : Nat → Except AuthErr Unit) (maxRetries fuel attempt : Nat)
    (lastErr : Option ReqErr) (acc : List Effect) (ra : Option Nat) (t : String)
    (htok : getTok attempt = .ok t) (hf : fetch attempt = .httpErr 429 ra) :
    requestLoop endpoint getTok fetch refreshAt maxRetries (fuel + 1) attempt lastErr acc =
      requestLoop endpoint getTok fetch refreshAt maxRetries fuel (attempt + 1)
        (some (.http 429 ra))
        (acc ++ [.fetch endpoint, .sleepMs (retryWaitMs ra attempt)]) ∧
    request "ep" tokOk fetch429then200 refreshOk 3 =
      (.ok ⟨"payload"⟩, [.fetch "ep", .sleepMs 2000, .fetch "ep"]) := by
  constructor
  · simp [requestLoop, htok, hf]
  · rfl

/-- Witness for request_429_wait_policy at a concrete oracle. -/
theorem request_429_wait_policy_instance :
    (requestLoop "ep" tokOk fetch429ra5 refreshOk 1 1 0 none [] =
      requestLoop "ep" tokOk fetch429ra5 refreshOk 1 0 1 (some (.http 429 (some 5)))
        [.fetch "ep", .sleepMs (retryWaitMs (some 5) 0)]) ∧
    request "ep" tokOk fetch429then200 refreshOk 3 =
      (.ok ⟨"payload"⟩, [.fetch "ep", .sleepMs 2000, .fetch "ep"]) :=
  request_429_wait_policy "ep" tokOk fetch429ra5 refreshOk 1 0 0 none []
    (some 5) "tok" rfl rfl

/-- Claim C10: on the final attempt (one unit of budget left and
attempt >= maxRetries - 1), a 429 still sleeps the full computed wait and then
fails with that 429 error with no further fetch, whereas a 500 on the final
attempt skips the sleep and fails at once. -/
theorem requestLoop_429_final_sleeps_500_skips (endpoint : String)
    (getTok : Nat → Except AuthErr String) (fetchA fetchB : Nat → FetchResult)
    (refreshAt : Nat → Except AuthErr Unit) (maxRetries attempt : Nat)
    (lastErr : Option ReqErr) (acc : List Effect) (ra : Option Nat) (t : String)
    (htok : getTok attempt = .ok t)
    (hA : fetchA attempt = .httpErr 429 ra)
    (hB : fetchB attempt = .httpErr 500 none)
    (hfin : ¬ attempt < maxRetries - 1) :
    requestLoop endpoint getTok fetchA refreshAt maxRetries 1 attempt lastErr acc =
      (.error (some (.http 429 ra)),
       acc ++ [.fetch endpoint, .sleepMs (retryWaitMs ra attempt)]) ∧
    requestLoop endpoint getTok fetchB refreshAt maxRetries 1 attempt lastErr acc =
      (.error (some (.http 500 none)), acc ++ [.fetch endpoint]) := by
  constructor
  · simp [requestLoop, htok, hA]
  · simp [requestLoop, htok, hB, hfin]

/-- Witness for requestLoop_429_final_sleeps_500_skips with maxRetries = 1. -/
theorem requestLoop_429_final_sleeps_500_skips_instance :
    requestLoop "ep" tokOk fetch429ra5 refreshOk 1 1 0 none [] =
      (.error (some (.http 429 (some 5))),
       [.fetch "ep", .sleepMs (retryWaitMs (some 5) 0)]) ∧
    requestLoop "ep" tokOk fetch500 refreshOk 1 1 0 none [] =
      (.error (some (.http 500 none)), [.fetch "ep"]) :=
  requestLoop_429_final_sleeps_500_skips "ep" tokOk fetch429ra5 fetch500 refreshOk 1 0
    none [] (some 5) "tok" rfl rfl rfl (by decide)

/-- Claim C1: for a state holding an access token and an expiry e, when
now + refreshBuffer < e (expiry more than the buffer in the future)
getValidToken returns the stored token with the state untouched and zero
refresh calls; when e <= now + refreshBuffer (expiry within the buffer of now
or past) it invokes refreshAccessToken exactly once, and when that refresh
succeeds with a token body it returns the new access token. -/
theorem getValidToken_refresh_policy (now e : Nat) (tok : String)
    (t : TokenTransport) (td : TokenData) (s : AuthState)
    (hacc : s.accessToken = some tok) (hexp : s.tokenExpiry = some e) :
    (now + refreshBuffer < e →
      getValidToken now t s = (.ok (some tok), s, 0)) ∧
    (e ≤ now + refreshBuffer → (getValidToken now t s).2.2 = 1) ∧
    (e ≤ now + refreshBuffer → s.refreshToken.isSome →
      makeRequest t = .ok (.tokenJson td) →
      getValidToken now t s = (.ok (some td.access_token), storeTokens now td s, 1)) := by
  refine ⟨fun hlt => ?_, fun hle => ?_, fun hle hrt hmk => ?_⟩
  · have hn : needsRefresh now s = false := by
      simp [needsRefresh, hexp]
      omega
    simp [getValidToken, hacc, hn]
  · have hn : needsRefresh now s = true := by
      simp [needsRefresh, hexp]
      omega
    rcases hr : refreshAccessToken now t s with ⟨r, s₁⟩
    cases r <;> simp [getValidToken, hacc, hn, hr]
  · have hn : needsRefresh now s = true := by
      simp [needsRefresh, hexp]
      omega
    rcases hrt' : s.refreshToken with _ | rt
    · rw [hrt'] at hrt
      simp at hrt
    · have hr : refreshAccessToken now t s = (.ok (.tokenJson td), storeTokens now td s) := by
        simp [refreshAccessToken, hrt', hmk, storeTokensParsed]
      simp [getValidToken, hacc, hn, hr, storeTokens]

/-- Witness for getValidToken_refresh_policy: the fresh-token branch at
now = 0 and the refresh branch at now = 900000 against sAuthed. -/
theorem getValidToken_refresh_policy_instance :
    getValidToken 0 ttOkNew sAuthed = (.ok (some "tok"), sAuthed, 0) ∧
    getValidToken 900000 ttOkNew sAuthed =
      (.ok (some "newtok"), storeTokens 900000 tdNew sAuthed, 1) :=
  ⟨(getValidToken_refresh_policy 0 1000000 "tok" ttOkNew tdNew sAuthed rfl rfl).1
      (by decide),
   (getValidToken_refresh_policy 900000 1000000 "tok" ttOkNew tdNew sAuthed rfl rfl).2.2
      (by decide) rfl rfl⟩

/-- Claim C4: authenticate fails with the HTTP-status error when the token
endpoint answers 4xx with an OAuth invalid_grant or invalid_client body, with
the request-failed error on transport failure, and with the parse error when
the body is unparseable; the three failure values are pairwise distinct, so
the caller can tell them apart. State is untouched in every failure case. -/
theorem authenticate_failure_classification (now code : Nat) (err : String)
    (d : Option String) (m : String) (s : AuthState)
    (h4 : 400 ≤ code) (h5 : code < 500)
    (herr : err = "invalid_grant" ∨ err = "invalid_client") :
    authenticate now (.response code (.parsed (.oauthError err d))) s =
      (.error (.httpStatus code (errDescription (.oauthError err d))), s) ∧
    authenticate now (.transportError m) s = (.error (.requestFailed m), s) ∧
    authenticate now (.response code .unparseable) s = (.error .parseFailed, s) ∧
    AuthErr.httpStatus code (errDescription (.oauthError err d)) ≠ .requestFailed m ∧
    AuthErr.httpStatus code (errDescription (.oauthError err d)) ≠ .parseFailed ∧
    AuthErr.requestFailed m ≠ .parseFailed := by
  have hno : ¬ (200 ≤ code ∧ code < 300) := by omega
  refine ⟨?_, ?_, ?_, ?_, ?_, ?_⟩ <;> simp [authenticate, makeRequest, hno]

/-- Witness for authenticate_failure_classification at status 401 with an
invalid_grant body. -/
theorem authenticate_failure_classification_instance :
    authenticate 0 (.response 401 (.parsed (.oauthError "invalid_grant" (some "bad")))) ⟨none, none, none⟩ =
      (.error (.httpStatus 401 (errDescription (.oauthError "invalid_grant" (some "bad")))), ⟨none, none, none⟩) ∧
    authenticate 0 (.transportError "ECONNRESET") ⟨none, none, none⟩ =
      (.error (.requestFailed "ECONNRESET"), ⟨none, none, none⟩) ∧
    authenticate 0 (.response 401 .unparseable) ⟨none, none, none⟩ =
      (.error .parseFailed, ⟨none, none, none⟩) ∧
    AuthErr.httpStatus 401 (errDescription (.oauthError "invalid_grant" (some "bad"))) ≠ .requestFailed "ECONNRESET" ∧
    AuthErr.httpStatus 401 (errDescription (.oauthError "invalid_grant" (some "bad"))) ≠ .parseFailed ∧
    AuthErr.requestFailed "ECONNRESET" ≠ .parseFailed :=
  authenticate_failure_classification 0 401 "invalid_grant" (some "bad") "ECONNRESET"
    ⟨none, none, none⟩ (by decide) (by decide) (Or.inl rfl)

/-- Claim C5: refreshAccessToken fails with the no-refresh-token error and
leaves the state untouched when no refresh token is stored; and whenever the
token endpoint call fails it clears the whole token state (all three fields
none) and surfaces that failure. -/
theorem refreshAccessToken_failure_clears_state (now : Nat) (t : TokenTransport)
    (s : AuthState) (e : AuthErr) (rt : String) :
    (s.refreshToken = none →
      refreshAccessToken now t s = (.error .noRefreshToken, s)) ∧
    (s.refreshToken = some rt → makeRequest t = .error e →
      refreshAccessToken now t s = (.error e, ⟨none, none, none⟩)) := by
  constructor
  · intro h
    simp [refreshAccessToken, h]
  · intro h hmk
    simp [refreshAccessToken, h, hmk, clearTokens]

/-- Witness for refreshAccessToken_failure_clears_state: the unauthenticated
branch and a 400 invalid_grant refresh failure against sAuthed. -/
theorem refreshAccessToken_failure_clears_state_instance :
    refreshAccessToken 0 ttFail400 ⟨none, none, none⟩ =
      (.error .noRefreshToken, ⟨none, none, none⟩) ∧
    refreshAccessToken 0 ttFail400 sAuthed =
      (.error (.httpStatus 400 "invalid_grant"), ⟨none, none, none⟩) :=
  ⟨(refreshAccessToken_failure_clears_state 0 ttFail400 ⟨none, none, none⟩
      (.httpStatus 400 "invalid_grant") "rt").1 rfl,
   (refreshAccessToken_failure_clears_state 0 ttFail400 sAuthed
      (.httpStatus 400 "invalid_grant") "rt").2 rfl rfl⟩

/-- Claim C3: the cache-hit test holds iff an entry for the exact endpoint
string exists and now is strictly below its stored expiry; a hit returns the
cached payload with no fetch and no state change; a second call at the same
instant with positive ttl returns the first call's payload and state with no
fetch (so two immediate calls fetch at most once); and a call at or past the
stored expiry fetches again and overwrites both the payload and the expiry of
the entry. -/
theorem cachedRequest_cache_semantics (endpoint : String) (ttl now now₂ x : Nat)
    (d d₂ : JsonData) (fo fo₂ : Except (Option ReqErr) JsonData)
    (st : ClientState) :
    (cacheHit endpoint now st = true ↔
      (∃ p, st.cache.lookup endpoint = some p) ∧
      (∃ y, st.cacheExpiry.lookup endpoint = some y ∧ now < y)) ∧
    (st.cache.lookup endpoint = some d → st.cacheExpiry.lookup endpoint = some x →
      now < x → cachedRequest endpoint ttl now fo st = (.ok d, st, false)) ∧
    (0 < ttl →
      cachedRequest endpoint ttl now fo₂ (cachedRequest endpoint ttl now (.ok d) st).2.1 =
        ((cachedRequest endpoint ttl now (.ok d) st).1,
         (cachedRequest endpoint ttl now (.ok d) st).2.1, false)) ∧
    (st.cacheExpiry.lookup endpoint = some x → x ≤ now₂ →
      cachedRequest endpoint ttl now₂ (.ok d₂) st =
        (.ok d₂,
         ⟨mapSet endpoint d₂ st.cache, mapSet endpoint (now₂ + ttl) st.cacheExpiry⟩,
         true) ∧
      (mapSet endpoint d₂ st.cache).lookup endpoint = some d₂ ∧
      (mapSet endpoint (now₂ + ttl) st.cacheExpiry).lookup endpoint = some (now₂ + ttl)) := by
  refine ⟨?_, fun hd hx hlt => ?_, fun httl => ?_, fun hx hle => ?_⟩
  · rcases hc : st.cache.lookup endpoint with _ | p <;>
      rcases he : st.cacheExpiry.lookup endpoint with _ | y <;>
      simp [cacheHit, hc, he]
  · have hh : cacheHit endpoint now st = true := by simp [cacheHit, hd, hx, hlt]
    simp [cachedRequest, hh, hd]
  · by_cases hh : cacheHit endpoint now st = true
    · simp [cachedRequest, hh]
    · have hh' : cacheHit endpoint now st = false := by
        simpa using hh
      have hcache : (mapSet endpoint d st.cache).lookup endpoint = some d :=
        mapSet_lookup_self endpoint d st.cache
      have hexp : (mapSet endpoint (now + ttl) st.cacheExpiry).lookup endpoint =
          some (now + ttl) :=
        mapSet_lookup_self endpoint (now + ttl) st.cacheExpiry
      have hh₂ : cacheHit endpoint now
          (⟨mapSet endpoint d st.cache, mapSet endpoint (now + ttl) st.cacheExpiry⟩ :
            ClientState) = true := by
        simp [cacheHit, hcache, hexp]
        omega
      simp [cachedRequest, hh', hh₂, hcache]
  · have hnlt : ¬ now₂ < x := by omega
    have hh : cacheHit endpoint now₂ st = false := by
      simp [cacheHit, hx, hnlt]
    refine ⟨?_, mapSet_lookup_self endpoint d₂ st.cache,
      mapSet_lookup_self endpoint (now₂ + ttl) st.cacheExpiry⟩
    simp [cachedRequest, hh]

/-- Witness for cachedRequest_cache_semantics against stCached: a hit at
t = 1000 returns the cached payload without fetching, the repeated call stays
a hit, and a call at the stored expiry 301000 refetches and overwrites. -/
theorem cachedRequest_cache_semantics_instance :
    cachedRequest "car/get" 300000 1000 (.error none) stCached =
      (.ok payloadA, stCached, false) ∧
    cachedRequest "car/get" 300000 1000 (.error none)
        (cachedRequest "car/get" 300000 1000 (.ok payloadA) stCached).2.1 =
      ((cachedRequest "car/get" 300000 1000 (.ok payloadA) stCached).1,
       (cachedRequest "car/get" 300000 1000 (.ok payloadA) stCached).2.1, false) ∧
    (cachedRequest "car/get" 300000 301000 (.ok payloadB) stCached =
      (.ok payloadB,
       ⟨mapSet "car/get" payloadB stCached.cache,
        mapSet "car/get" (301000 + 300000) stCached.cacheExpiry⟩,
       true) ∧
     (mapSet "car/get" payloadB stCached.cache).lookup "car/get" = some payloadB ∧
     (mapSet "car/get" (301000 + 300000) stCached.cacheExpiry).lookup "car/get" =
       some (301000 + 300000)) :=
  ⟨(cachedRequest_cache_semantics "car/get" 300000 1000 301000 301000 payloadA payloadB
      (.error none) (.error none) stCached).2.1 (by decide) (by decide) (by decide),
   (cachedRequest_cache_semantics "car/get" 300000 1000 301000 301000 payloadA payloadB
      (.error none) (.error none) stCached).2.2.1 (by decide),
   (cachedRequest_cache_semantics "car/get" 300000 1000 301000 301000 payloadA payloadB
      (.error none) (.error none) stCached).2.2.2 (by decide) (by decide)⟩

/-- Claim C9: when the underlying fetch fails, cachedRequest leaves both cache
maps exactly as they were: no entry is created, overwritten or removed. -/
theorem cachedRequest_failed_fetch_frame (endpoint : String) (ttl now : Nat)
    (e : Option ReqErr) (st : ClientState) :
    (cachedRequest endpoint ttl now (.error e) st).2.1 = st := by
  unfold cachedRequest
  split
  · rfl
  · rfl

end IRacing
